import Mathlib

/-!
Shallow embedding of the gupax supervisor subsystem
(`src/helper.rs` and `src/helper/xvb/algorithm.rs`).

Modelling conventions:
* Rust `f32`/`f64` values are embedded as exact rationals (`ℚ`); every
  arithmetic step mirrors the source expression, with real (non-rounded)
  arithmetic.  Integer casts (`as u32`) are embedded explicitly with
  truncation toward zero and saturation, as in Rust.
* Rust machine integers (`u32`, `u64`, `u128`) are embedded as `ℕ`;
  integer division in the source stays integer (`Nat`) division here.
* Strings are Lean `String`s; `String.len()` (a byte count in Rust) is
  embedded as `String.length`, which agrees with it on the ASCII data
  handled by these buffers.
* Constants imported by the two source files from elsewhere in the
  repository (`constants.rs`, the xvb module) are modelled from the spec
  and carry a doc comment saying so.
-/

namespace Gupax

/-- Rust `as u32` on a float: truncate toward zero, saturate to `[0, 2^32-1]`.
For nonnegative values truncation is the floor; negative values clamp to 0,
which `Int.toNat` provides. -/
def u32OfRat (x : ℚ) : ℕ := min (Int.toNat (Int.floor x)) 4294967295

/-- Rust `.ceil() as u32` on a float: ceiling, then the saturating cast. -/
def u32CeilOfRat (x : ℚ) : ℕ := min (Int.toNat (Int.ceil x)) 4294967295

/-! ## Constants used by the donation scheduler

`XVB_TIME_ALGO`, `XVB_BUFFER`, `SECOND_PER_BLOCK_P2POOL`, the PPLNS window
sizes and the four donor-round thresholds are imported by
`algorithm.rs` from the rest of the repository, which is not part of the
sources; their values are modelled from the spec. -/

/-- Modelled from the spec: the scheduler epoch `EPOCH = 600 s`
(`XVB_TIME_ALGO` in the source). -/
def XVB_TIME_ALGO : ℕ := 600

/-- Modelled from the spec: `BUFFER = 1.2` (`XVB_BUFFER`). -/
def XVB_BUFFER : ℚ := 6 / 5

/-- Modelled from the spec: `SPB = 10` seconds per pool block. -/
def SECOND_PER_BLOCK_P2POOL : ℕ := 10

/-- Modelled from the spec: mini-chain PPLNS window `PWS = 2160`. -/
def BLOCK_PPLNS_WINDOW_MINI : ℕ := 2160

/-- Modelled from the spec: main-chain PPLNS window constant; the spec notes
both named constants carry the same value `2160`. -/
def BLOCK_PPLNS_WINDOW_MAIN : ℕ := 2160

/-- Modelled from the spec: donor-round threshold `MIN_DONOR` (spec scenario
table: 1k). -/
def XVB_ROUND_DONOR_MIN_HR : ℕ := 1000

/-- Modelled from the spec: donor-round threshold `MIN_VIP` (spec scenario
table: 10k). -/
def XVB_ROUND_DONOR_VIP_MIN_HR : ℕ := 10000

/-- Modelled from the spec: donor-round threshold `MIN_WHALE` (spec scenario
table: 100k). -/
def XVB_ROUND_DONOR_WHALE_MIN_HR : ℕ := 100000

/-- Modelled from the spec: donor-round threshold `MIN_MEGA` (spec scenario
table: 1M). -/
def XVB_ROUND_DONOR_MEGA_MIN_HR : ℕ := 1000000

/-! ## `src/helper/xvb/algorithm.rs` -/

/-- `calc_last_hour_avg_hash_rate`: sum of the window samples divided by the
number of samples, with no emptiness guard (source lines 222–224).  The
`SamplesAverageHour` window is embedded as a `List ℚ`. -/
def calc_last_hour_avg_hash_rate (samples : List ℚ) : ℚ :=
  samples.sum / (samples.length : ℚ)

/-- `minimum_hashrate_share` (source lines 79–86): integer division of the
difficulty by `pws * SECOND_PER_BLOCK_P2POOL`, times the buffer, minus the
other-sources hashrate. -/
def minimum_hashrate_share (difficulty : ℕ) (mini : Bool) (ohr : ℚ) : ℚ :=
  let pws := if mini then BLOCK_PPLNS_WINDOW_MINI else BLOCK_PPLNS_WINDOW_MAIN
  ((difficulty / (pws * SECOND_PER_BLOCK_P2POOL) : ℕ) : ℚ) * XVB_BUFFER - ohr

/-- `time_that_could_be_spared` (source lines 87–96). -/
def time_that_could_be_spared (hr min_hr : ℚ) : ℕ :=
  let minimum_time_required_on_p2pool : ℚ := (XVB_TIME_ALGO : ℚ) / (hr / min_hr)
  let spared_time : ℚ := (XVB_TIME_ALGO : ℚ) - minimum_time_required_on_p2pool
  if 6 ≤ spared_time then u32OfRat spared_time else 0

/-- `minimum_time_for_highest_accessible_round` (source lines 99–166):
tier snapping.  `st` is the spared time, `lhr` the local hashrate, `chr` the
donor-pool 1h average, `shr` the 1h average sent to the donor. -/
def minimum_time_for_highest_accessible_round (st : ℕ) (lhr chr shr : ℚ) : ℕ :=
  let hr_for_xvb : ℚ := ((st - 1 : ℕ) : ℚ) / (XVB_TIME_ALGO : ℚ) * lhr
  let ohr : ℚ := chr - shr
  let min_mega : ℚ := (XVB_ROUND_DONOR_MEGA_MIN_HR : ℚ) - ohr
  let min_whale : ℚ := (XVB_ROUND_DONOR_WHALE_MIN_HR : ℚ) - ohr
  let min_donorvip : ℚ := (XVB_ROUND_DONOR_VIP_MIN_HR : ℚ) - ohr
  let min_donor : ℚ := (XVB_ROUND_DONOR_MIN_HR : ℚ) - ohr
  if min_mega < hr_for_xvb then
    u32CeilOfRat ((hr_for_xvb - (hr_for_xvb - min_mega)) / lhr * (XVB_TIME_ALGO : ℚ))
  else if min_whale < hr_for_xvb then
    u32CeilOfRat ((hr_for_xvb - (hr_for_xvb - min_whale)) / lhr * (XVB_TIME_ALGO : ℚ))
  else if min_donorvip < hr_for_xvb then
    u32CeilOfRat ((hr_for_xvb - (hr_for_xvb - min_donorvip)) / lhr * (XVB_TIME_ALGO : ℚ))
  else if min_donor < hr_for_xvb then
    u32CeilOfRat ((hr_for_xvb - (hr_for_xvb - min_donor)) / lhr * (XVB_TIME_ALGO : ℚ))
  else 0

/-- The mutable xvb state the scheduler epoch touches: the two last-hour
sample windows and the shared `time_donated` cell. -/
structure XvbState where
  p2pool_sent_last_hour_samples : List ℚ
  xvb_sent_last_hour_samples : List ℚ
  time_donated : ℕ
  deriving Repr, DecidableEq

/-- The telemetry inputs one scheduler epoch reads (from
`PubXmrigApi`, `PubP2poolApi`, `state_p2pool` and `stats_priv`). -/
structure AlgoInputs where
  share : ℕ
  hashrate_raw_15m : ℚ
  hashrate_raw_1m : ℚ
  hashrate_raw : ℚ
  sidechain_ehr : ℚ
  p2pool_difficulty_u64 : ℕ
  mini : Bool
  runtime_hero_mode : Bool
  donor_1hr_avg : ℚ
  deriving Repr, DecidableEq

/-- `calcul_donated_time` (source lines 25–78).  Reads the p2pool estimated
hashrate and the sample windows, clamps the minimum hashrate at zero
(`is_sign_negative`), computes the spared time, and tier-snaps it unless
hero mode is on. -/
def calcul_donated_time (lhr : ℚ) (inp : AlgoInputs) (s : XvbState) : ℕ :=
  let p2pool_ehr := inp.sidechain_ehr
  let p2pool_ohr :=
    p2pool_ehr - calc_last_hour_avg_hash_rate s.p2pool_sent_last_hour_samples
  let min_hr0 := minimum_hashrate_share inp.p2pool_difficulty_u64 inp.mini p2pool_ohr
  let min_hr := if min_hr0 < 0 then 0 else min_hr0
  let spared_time := time_that_could_be_spared lhr min_hr
  if 0 < spared_time ∧ inp.runtime_hero_mode = false then
    let xvb_chr := inp.donor_1hr_avg * 1000
    let shr := calc_last_hour_avg_hash_rate s.xvb_sent_last_hour_samples
    minimum_time_for_highest_accessible_round spared_time lhr xvb_chr shr
  else
    spared_time

/-- Modelled from the spec: the sample windows are fixed-capacity queues of
6 entries (one hour of 10-minute epochs); `push_back` on a full window
evicts the oldest sample.  The `SamplesAverageHour` type lives outside the
two source files. -/
def pushSample (w : List ℚ) (x : ℚ) : List ℚ :=
  if 6 ≤ w.length then w.tail ++ [x] else w ++ [x]

/-- The state effect of one scheduler epoch, `algorithm`
(source lines 226–361).  Console output, sleeps and the HTTP reconfiguration
requests are not part of the state modelled here.
* share branch (`share > 0`): pick the local hashrate with the 15m/1m/raw
  fallback, write the decision to `time_donated`, and push one sample on
  each window, computed with the source's `u32` integer divisions
  `(XVB_TIME_ALGO - time_donated) / XVB_TIME_ALGO` and
  `time_donated / XVB_TIME_ALGO` cast to float afterwards (lines 313–320).
* no-share branch: push the raw 15-minute hashrate and then `0.0`, both
  onto `p2pool_sent_last_hour_samples` (lines 349–356); `time_donated` is
  not written. -/
def algorithm (inp : AlgoInputs) (s : XvbState) : XvbState :=
  if 0 < inp.share then
    let hashrate_xmrig :=
      if 0 < inp.hashrate_raw_15m then inp.hashrate_raw_15m
      else if 0 < inp.hashrate_raw_1m then inp.hashrate_raw_1m
      else inp.hashrate_raw
    let td := calcul_donated_time hashrate_xmrig inp s
    { p2pool_sent_last_hour_samples :=
        pushSample s.p2pool_sent_last_hour_samples
          (hashrate_xmrig * (((XVB_TIME_ALGO - td) / XVB_TIME_ALGO : ℕ) : ℚ)),
      xvb_sent_last_hour_samples :=
        pushSample s.xvb_sent_last_hour_samples
          (hashrate_xmrig * ((td / XVB_TIME_ALGO : ℕ) : ℚ)),
      time_donated := td }
  else
    { s with p2pool_sent_last_hour_samples :=
        pushSample (pushSample s.p2pool_sent_last_hour_samples inp.hashrate_raw_15m) 0 }

/-! ## `src/helper.rs`: constants, process records, output buffers -/

/-- `MAX_GUI_OUTPUT_BYTES` (source line 59). -/
def MAX_GUI_OUTPUT_BYTES : ℕ := 500000

/-- `GUI_OUTPUT_LEEWAY` (source line 61). -/
def GUI_OUTPUT_LEEWAY : ℕ := MAX_GUI_OUTPUT_BYTES - 1000

/-- `ProcessState` (source lines 191–197). -/
inductive ProcessState where
  | Alive
  | Dead
  | Failed
  | Middle
  | Waiting
  deriving Repr, DecidableEq

/-- `ProcessSignal` (source lines 200–205). -/
inductive ProcessSignal where
  | None
  | Start
  | Stop
  | Restart
  deriving Repr, DecidableEq

/-- `ProcessName` (source lines 208–211). -/
inductive ProcessName where
  | P2pool
  | Xmrig
  deriving Repr, DecidableEq

/-- The `Display` rendering of a `ProcessName` (source lines 215–222). -/
def ProcessName.display : ProcessName → String
  | .P2pool => "P2Pool"
  | .Xmrig => "XMRig"

/-- `Process` (source lines 123–156).  The child and stdin handles are
embedded by presence (`Bool`); the two output buffers as strings. -/
structure Process where
  name : ProcessName
  state : ProcessState
  signal : ProcessSignal
  input : List String
  child : Bool
  stdin : Bool
  output_parse : String
  output_pub : String
  deriving Repr, DecidableEq

/-- `Helper::stop_p2pool` (source lines 283–287): unconditionally sets the
signal to `Stop` and the state to `Middle`;  it touches nothing else. -/
def stop_p2pool (p : Process) : Process :=
  { p with signal := ProcessSignal.Stop, state := ProcessState.Middle }

/-- `Helper::stop_xmrig` (source lines 639–643): same two writes as
`stop_p2pool`, on the miner record. -/
def stop_xmrig (p : Process) : Process :=
  { p with signal := ProcessSignal.Stop, state := ProcessState.Middle }

/-- Modelled from the spec: `HORI_CONSOLE`, the fixed horizontal rule that
brackets console banners, lives in `constants.rs` outside the sources. -/
def HORI_CONSOLE : String := String.mk (List.replicate 100 '-')

/-- The reset banner written by `check_reset_gui_output` (source line 272):
rule, name, the rotation message, rule, three blank lines.  The contraction
in the source message is written out here without its apostrophe; only the
banner length matters to the properties below. -/
def resetNotice (name : ProcessName) : String :=
  HORI_CONSOLE ++ "\n" ++ name.display
    ++ " GUI log is exceeding the maximum: 500000 bytes!\nI have reset the logs for you!\n"
    ++ HORI_CONSOLE ++ "\n\n\n\n"

/-- `Helper::check_reset_gui_output` (source lines 268–279): if the buffer
byte length exceeds `GUI_OUTPUT_LEEWAY`, clear it and replace it with the
reset banner; otherwise leave it unchanged.  Rust's byte length is embedded
as `String.length` (the buffers handled here are ASCII). -/
def check_reset_gui_output (output : String) (name : ProcessName) : String :=
  if GUI_OUTPUT_LEEWAY < output.length then resetNotice name else output

/-- The net effect of one watchdog epoch on a process's UI console buffer:
the watchdog runs `check_reset_gui_output` on it (source line 585), and the
text appended to it afterwards within the epoch (banners, and the internal
output drained by the reconciliation merge) is concatenated. -/
def epochBufUpdate (name : ProcessName) (buf delta : String) : String :=
  check_reset_gui_output buf name ++ delta

/-! ## `src/helper.rs`: the pool payout parser

`PubP2poolApi::calc_payouts_and_xmr` (source lines 1491–1502) greps the
parse buffer with the regex `You received a payout of [0-9].[0-9]+ XMR`
(`find_iter`, leftmost non-overlapping matches), re-finds the first
`[0-9].[0-9]+` inside each match and parses it as an `f64`, skipping
parse failures.  The two regexes are embedded as a specialised scanner:
`.` matches any character except a newline, and because `" XMR"` starts
with a non-digit, the greedy `[0-9]+` is exactly the maximal digit run.
Inside a match `You received a payout of <d><c><run> XMR` the literal
prefix contains no digit, so the first `[0-9].[0-9]+` match is
`<d><c><run>` itself. -/

/-- The literal part of the payout pattern. -/
def payoutLit : List Char := "You received a payout of ".data

/-- The literal tail of the payout pattern. -/
def xmrLit : List Char := " XMR".data

/-- Strip an expected literal: `dropLit lit l` returns the rest of `l`
after `lit`, or `none` if `l` does not start with `lit`. -/
def dropLit : List Char → List Char → Option (List Char)
  | [], l => some l
  | _ :: _, [] => none
  | p :: ps, c :: cs => if c = p then dropLit ps cs else none

/-- Split off the maximal leading run of ASCII digits. -/
def takeDigits : List Char → List Char × List Char
  | [] => ([], [])
  | c :: cs =>
    if c.isDigit then
      let p := takeDigits cs
      (c :: p.1, p.2)
    else ([], c :: cs)

/-- Attempt the payout pattern at the head of `l`; on success return the
captured `(digit, any-char, digit-run)` and the rest of the input after
the match. -/
def matchPayoutAt (l : List Char) : Option ((Char × Char × List Char) × List Char) :=
  match dropLit payoutLit l with
  | none => none
  | some r1 =>
    match r1 with
    | d :: c :: rest =>
      if d.isDigit = true ∧ c ≠ '\n' then
        let p := takeDigits rest
        if p.1 ≠ [] then
          match dropLit xmrLit p.2 with
          | some rest3 => some ((d, c, p.1), rest3)
          | none => none
        else none
      else none
    | _ => none

/-- `find_iter`: scan left to right, collecting non-overlapping matches and
resuming after each one.  The fuel argument (instantiated with the input
length, which bounds the number of scan steps since every step consumes at
least one character) makes the recursion structural. -/
def scanPayouts : ℕ → List Char → List (Char × Char × List Char)
  | 0, _ => []
  | _ + 1, [] => []
  | fuel + 1, l@(_ :: tl) =>
    match matchPayoutAt l with
    | some (m, rest) => m :: scanPayouts fuel rest
    | none => scanPayouts fuel tl

/-- Numeric value of an ASCII digit. -/
def digitVal (c : Char) : ℕ := c.toNat - '0'.toNat

/-- Value of a digit string read in base 10. -/
def natOfDigits (l : List Char) : ℕ := l.foldl (fun n c => 10 * n + digitVal c) 0

/-- Rust `str::parse::<f64>` on a float-regex match `<d><c><run>`, embedded
exactly for the shapes the pool emits: a decimal number when `c = '.'`, a
plain integer when `c` is a digit, and a parse error otherwise (the
logged-and-skipped branch of the source).  Values are exact rationals. -/
def parseF64 (m : Char × Char × List Char) : Option ℚ :=
  if m.2.1 = '.' then
    some ((digitVal m.1 : ℚ) + (natOfDigits m.2.2 : ℚ) / 10 ^ m.2.2.length)
  else if m.2.1.isDigit then some ((natOfDigits (m.1 :: m.2.1 :: m.2.2) : ℚ))
  else none

/-- `PubP2poolApi::calc_payouts_and_xmr` (source lines 1491–1502): count
and sum every successfully parsed payout match. -/
def calc_payouts_and_xmr (output : String) : ℕ × ℚ :=
  (scanPayouts output.data.length output.data).foldl
    (fun acc m =>
      match parseF64 m with
      | some num => (acc.1 + 1, acc.2 + num)
      | none => acc)
    (0, 0)

/-! ## `src/helper.rs`: public telemetry records and the reconciliation merge -/

/-- `PubP2poolApi` (source lines 1358–1380).  `HumanTime` is embedded as the
number of elapsed seconds; the seven `HumanNumber` display fields as their
rendered strings. -/
structure PubP2poolApi where
  output : String
  uptime : ℕ
  payouts : ℕ
  payouts_hour : ℚ
  payouts_day : ℚ
  payouts_month : ℚ
  xmr : ℚ
  xmr_hour : ℚ
  xmr_day : ℚ
  xmr_month : ℚ
  hashrate_15m : String
  hashrate_1h : String
  hashrate_24h : String
  shares_found : String
  average_effort : String
  current_effort : String
  connections : String
  deriving Repr, DecidableEq

/-- `PubP2poolApi::new` (source lines 1389–1409), also the `Default` used by
`std::mem::take`. -/
def PubP2poolApi.new : PubP2poolApi :=
  { output := "", uptime := 0, payouts := 0,
    payouts_hour := 0, payouts_day := 0, payouts_month := 0,
    xmr := 0, xmr_hour := 0, xmr_day := 0, xmr_month := 0,
    hashrate_15m := "???", hashrate_1h := "???", hashrate_24h := "???",
    shares_found := "???", average_effort := "???", current_effort := "???",
    connections := "???" }

/-- `PubP2poolApi::combine_gui_pub_api` (source lines 1415–1423): take the
UI output aside, take the internal output into `buf`, overwrite the whole
UI record with `std::mem::take(pub_api)` (leaving the internal record at
its `Default`), restore the UI output and append `buf` to it.  Returns
`(gui_api, pub_api)` after the call. -/
def PubP2poolApi.combine_gui_pub_api (gui_api pub_api : PubP2poolApi) :
    PubP2poolApi × PubP2poolApi :=
  let output := gui_api.output
  let buf := pub_api.output
  ({ pub_api with output := output ++ buf }, PubP2poolApi.new)

/-- `PubP2poolApi::update_from_output` (source lines 1426–1471): append the
drained PTY buffer to the internal output, parse and clear the parse
buffer, add the newly matched count and sum to the running totals, and
recompute the hour/day/month projections from the totals and the elapsed
seconds.  Returns the updated record and the two (now emptied) buffers. -/
def PubP2poolApi.update_from_output (public : PubP2poolApi)
    (output_parse output_pub : String) (elapsed : ℕ) :
    PubP2poolApi × String × String :=
  let outAppended :=
    if output_pub ≠ "" then public.output ++ output_pub else public.output
  let parsed := calc_payouts_and_xmr output_parse
  let payouts := public.payouts + parsed.1
  let xmr := public.xmr + parsed.2
  let elapsed_as_secs : ℚ := (elapsed : ℚ)
  let per_sec : ℚ := (payouts : ℚ) / elapsed_as_secs
  let payouts_hour := per_sec * 60 * 60
  let payouts_day := payouts_hour * 24
  let payouts_month := payouts_day * 30
  let per_sec_xmr : ℚ := xmr / elapsed_as_secs
  let xmr_hour := per_sec_xmr * 60 * 60
  let xmr_day := xmr_hour * 24
  let xmr_month := xmr_day * 30
  ({ public with
      output := outAppended
      uptime := elapsed
      payouts := payouts
      xmr := xmr
      payouts_hour := payouts_hour
      payouts_day := payouts_day
      payouts_month := payouts_month
      xmr_hour := xmr_hour
      xmr_day := xmr_day
      xmr_month := xmr_month },
    "", "")

/-- `PubXmrigApi` (source lines 1568–1578), with the same embedding
conventions as `PubP2poolApi`. -/
structure PubXmrigApi where
  output : String
  uptime : ℕ
  worker_id : String
  resources : String
  hashrate : String
  pool : String
  diff : String
  accepted : String
  rejected : String
  deriving Repr, DecidableEq

/-- `PubXmrigApi::new` (source lines 1587–1599). -/
def PubXmrigApi.new : PubXmrigApi :=
  { output := "", uptime := 0, worker_id := "???", resources := "???",
    hashrate := "???", pool := "???", diff := "???", accepted := "???",
    rejected := "???" }

/-- `PubXmrigApi::combine_gui_pub_api` (source lines 1601–1609): the same
merge as the pool version, on the miner record. -/
def PubXmrigApi.combine_gui_pub_api (gui_api pub_api : PubXmrigApi) :
    PubXmrigApi × PubXmrigApi :=
  let output := gui_api.output
  let buf := pub_api.output
  ({ pub_api with output := output ++ buf }, PubXmrigApi.new)

/-! ## Interleavings of parser passes and reconciliation merges

The watchdog thread calls `update_from_output` on the internal
(`pub_api`) record roughly every 900 ms; the helper thread calls
`combine_gui_pub_api` on the `(gui_api, pub_api)` pair once per second.
Both mutate shared state under a mutex, so a run is a sequence of these
two events. -/

/-- One event of the pool telemetry history: a watchdog parser pass (with
the parse buffer it drains and the elapsed seconds at that moment), or a
reconciliation merge. -/
inductive PoolEvent where
  | parse (parse_buf : String) (elapsed : ℕ)
  | merge
  deriving Repr

/-- Apply one event to the `(gui_api, pub_api)` pair. -/
def stepPoolEvent (st : PubP2poolApi × PubP2poolApi) : PoolEvent → PubP2poolApi × PubP2poolApi
  | PoolEvent.parse buf e => (st.1, (PubP2poolApi.update_from_output st.2 buf "" e).1)
  | PoolEvent.merge => PubP2poolApi.combine_gui_pub_api st.1 st.2

/-- Run a sequence of events from a starting pair. -/
def runPoolEvents (st : PubP2poolApi × PubP2poolApi) (evs : List PoolEvent) :
    PubP2poolApi × PubP2poolApi :=
  evs.foldl stepPoolEvent st

/-- Number of payout lines matched over a whole event sequence. -/
def matchedPayouts (evs : List PoolEvent) : ℕ :=
  (evs.map fun ev =>
    match ev with
    | PoolEvent.parse buf _ => (calc_payouts_and_xmr buf).1
    | PoolEvent.merge => 0).sum

/-- The tier-snapping rule in the form the spec states it: for tiers in
descending order (MEGA, WHALE, VIP, NORMAL) with required
`min_x := threshold_x - ohr_donor`, pick the first tier with
`hr_for_donor > min_x` and return the ceiling of `(min_x / LHR) * EPOCH`
(as the saturating `u32` cast of the source); return 0 when no tier
qualifies.  Written from the spec for comparison with
`minimum_time_for_highest_accessible_round`. -/
def tierSnapSpec (st : ℕ) (lhr chr shr : ℚ) : ℕ :=
  let hr_for_donor : ℚ := ((st - 1 : ℕ) : ℚ) / 600 * lhr
  let ohr_donor : ℚ := chr - shr
  if (1000000 : ℚ) - ohr_donor < hr_for_donor then
    u32CeilOfRat (((1000000 : ℚ) - ohr_donor) / lhr * 600)
  else if (100000 : ℚ) - ohr_donor < hr_for_donor then
    u32CeilOfRat (((100000 : ℚ) - ohr_donor) / lhr * 600)
  else if (10000 : ℚ) - ohr_donor < hr_for_donor then
    u32CeilOfRat (((10000 : ℚ) - ohr_donor) / lhr * 600)
  else if (1000 : ℚ) - ohr_donor < hr_for_donor then
    u32CeilOfRat (((1000 : ℚ) - ohr_donor) / lhr * 600)
  else 0

/-! ## Numeric lemmas -/

lemma u32OfRat_le_of_le {x : ℚ} {n : ℕ} (h : x ≤ (n : ℚ)) : u32OfRat x ≤ n := by
  have hf : Int.floor x ≤ (n : ℤ) := by
    have := Int.floor_mono h
    simpa using this
  calc u32OfRat x ≤ Int.toNat (Int.floor x) := min_le_left _ _
    _ ≤ n := Int.toNat_le.mpr hf

lemma u32CeilOfRat_le_of_le {x : ℚ} {n : ℕ} (h : x ≤ (n : ℚ)) : u32CeilOfRat x ≤ n := by
  have hf : Int.ceil x ≤ (n : ℤ) := Int.ceil_le.mpr (by exact_mod_cast h)
  calc u32CeilOfRat x ≤ Int.toNat (Int.ceil x) := min_le_left _ _
    _ ≤ n := Int.toNat_le.mpr hf

lemma time_that_could_be_spared_le {hr min_hr : ℚ} (hhr : 0 ≤ hr) (hm : 0 ≤ min_hr) :
    time_that_could_be_spared hr min_hr ≤ 600 := by
  simp only [time_that_could_be_spared]
  have hq : (0 : ℚ) ≤ (XVB_TIME_ALGO : ℚ) / (hr / min_hr) :=
    div_nonneg (by norm_num [XVB_TIME_ALGO]) (div_nonneg hhr hm)
  split
  · apply u32OfRat_le_of_le
    have h600 : ((600 : ℕ) : ℚ) = (XVB_TIME_ALGO : ℚ) := by norm_num [XVB_TIME_ALGO]
    rw [h600]
    linarith
  · exact Nat.zero_le _

lemma minimum_time_le {st : ℕ} {lhr chr shr : ℚ} (hl : 0 ≤ lhr) :
    minimum_time_for_highest_accessible_round st lhr chr shr ≤ st := by
  simp only [minimum_time_for_highest_accessible_round]
  have key : ∀ m : ℚ, m < ((st - 1 : ℕ) : ℚ) / (XVB_TIME_ALGO : ℚ) * lhr →
      u32CeilOfRat ((((st - 1 : ℕ) : ℚ) / (XVB_TIME_ALGO : ℚ) * lhr -
        (((st - 1 : ℕ) : ℚ) / (XVB_TIME_ALGO : ℚ) * lhr - m)) / lhr *
          (XVB_TIME_ALGO : ℚ)) ≤ st := by
    intro m hm
    have hsimp : (((st - 1 : ℕ) : ℚ) / (XVB_TIME_ALGO : ℚ) * lhr -
        (((st - 1 : ℕ) : ℚ) / (XVB_TIME_ALGO : ℚ) * lhr - m)) = m := by ring
    rw [hsimp]
    rcases eq_or_lt_of_le hl with hz | hpos
    · have hlz : lhr = 0 := hz.symm
      subst hlz
      apply u32CeilOfRat_le_of_le
      have : m / 0 = 0 := div_zero m
      rw [this]
      simp
    · apply u32CeilOfRat_le_of_le
      have hlt : m / lhr * (XVB_TIME_ALGO : ℚ) < ((st - 1 : ℕ) : ℚ) := by
        have h1 : m / lhr < ((st - 1 : ℕ) : ℚ) / (XVB_TIME_ALGO : ℚ) := by
          rw [div_lt_iff₀ hpos] at *
          calc m < ((st - 1 : ℕ) : ℚ) / (XVB_TIME_ALGO : ℚ) * lhr := hm
            _ = _ := by ring
        calc m / lhr * (XVB_TIME_ALGO : ℚ)
            < ((st - 1 : ℕ) : ℚ) / (XVB_TIME_ALGO : ℚ) * (XVB_TIME_ALGO : ℚ) := by
              apply mul_lt_mul_of_pos_right h1
              norm_num [XVB_TIME_ALGO]
          _ = ((st - 1 : ℕ) : ℚ) := by norm_num [XVB_TIME_ALGO]
      have hle : ((st - 1 : ℕ) : ℚ) ≤ (st : ℚ) := by
        exact_mod_cast Nat.sub_le st 1
      linarith
  split
  · next h => exact key _ h
  split
  · next h => exact key _ h
  split
  · next h => exact key _ h
  split
  · next h => exact key _ h
  · exact Nat.zero_le _

lemma clamp_nonneg (x : ℚ) : (0 : ℚ) ≤ if x < 0 then 0 else x := by
  split
  · exact le_refl 0
  · next h => exact le_of_not_lt h

lemma calcul_donated_time_le {lhr : ℚ} (hl : 0 ≤ lhr) (inp : AlgoInputs) (s : XvbState) :
    calcul_donated_time lhr inp s ≤ 600 := by
  have main : ∀ mh : ℚ, 0 ≤ mh →
      ∀ chr shr : ℚ,
      (if 0 < time_that_could_be_spared lhr mh ∧ inp.runtime_hero_mode = false then
        minimum_time_for_highest_accessible_round (time_that_could_be_spared lhr mh) lhr chr shr
      else time_that_could_be_spared lhr mh) ≤ 600 := by
    intro mh hmh chr shr
    split
    · next h =>
      calc minimum_time_for_highest_accessible_round _ lhr _ _
          ≤ time_that_could_be_spared lhr mh := minimum_time_le hl
        _ ≤ 600 := time_that_could_be_spared_le hl hmh
    · exact time_that_could_be_spared_le hl hmh
  simp only [calcul_donated_time]
  exact main _ (clamp_nonneg _) _ _

/-! ## Claim C1 -/

/-- A no-share epoch with a 1000 H/s 15-minute hashrate and empty windows. -/
def c1Inputs : AlgoInputs :=
  { share := 0, hashrate_raw_15m := 1000, hashrate_raw_1m := 0, hashrate_raw := 0,
    sidechain_ehr := 0, p2pool_difficulty_u64 := 0, mini := true,
    runtime_hero_mode := false, donor_1hr_avg := 0 }

/-- Starting windows for the C1 epoch. -/
def c1State : XvbState :=
  { p2pool_sent_last_hour_samples := [], xvb_sent_last_hour_samples := [],
    time_donated := 0 }

/-- C1: in a `share_in_window = false` epoch the code pushes BOTH samples —
the 15-minute hashrate and the zero — onto the `sent_to_pool` window and
pushes nothing onto the `sent_to_donor` window, contradicting the claimed
split `(LHR, 0)` across the two windows (the spec itself flags this branch
as a bug).  Evaluated at a no-share epoch with `LHR = 1000` and empty
windows: the pool window ends as `[1000, 0]` and the donor window stays
empty. -/
theorem c1_no_share_pushes_both_samples_to_pool_window :
    (algorithm c1Inputs c1State).p2pool_sent_last_hour_samples = [1000, 0] ∧
    (algorithm c1Inputs c1State).xvb_sent_last_hour_samples = [] := by
  constructor <;>
    norm_num [algorithm, c1Inputs, c1State, pushSample]

/-! ## Claim C2 -/

/-- A share epoch: `LHR = 4800` (15-minute), difficulty 21 600 000 on the
mini chain (so the required minimum hashrate is exactly 1200), hero mode
on (no tier snapping), one zero sample in each window.  The decision is
`donated = 450`. -/
def c2Inputs : AlgoInputs :=
  { share := 1, hashrate_raw_15m := 4800, hashrate_raw_1m := 0, hashrate_raw := 0,
    sidechain_ehr := 0, p2pool_difficulty_u64 := 21600000, mini := true,
    runtime_hero_mode := true, donor_1hr_avg := 0 }

/-- Starting windows for the C2 epoch. -/
def c2State : XvbState :=
  { p2pool_sent_last_hour_samples := [0], xvb_sent_last_hour_samples := [0],
    time_donated := 0 }

/-- C2: the samples appended after a share epoch are computed with the
`u32` integer divisions `(600 − donated) / 600` and `donated / 600`
(both 0 for `donated = 450`), not with real division.  Evaluated at a
decision `donated = 450` with `LHR = 4800`: the code appends `0` to both
windows, while the claimed real-ratio samples would be
`4800·(600−450)/600 = 1200` and `4800·450/600 = 3600` (the spec itself
directs implementers to use floating-point division here). -/
theorem c2_samples_use_integer_division :
    (algorithm c2Inputs c2State).time_donated = 450 ∧
    (algorithm c2Inputs c2State).p2pool_sent_last_hour_samples = [0, 0] ∧
    (algorithm c2Inputs c2State).xvb_sent_last_hour_samples = [0, 0] ∧
    (4800 : ℚ) * ((600 - 450 : ℚ) / 600) = 1200 ∧
    (4800 : ℚ) * ((450 : ℚ) / 600) = 3600 := by
  refine ⟨?_, ?_, ?_, by norm_num, by norm_num⟩ <;>
  · norm_num [algorithm, calcul_donated_time, time_that_could_be_spared,
      minimum_hashrate_share, calc_last_hour_avg_hash_rate, pushSample,
      u32OfRat, XVB_TIME_ALGO, XVB_BUFFER, SECOND_PER_BLOCK_P2POOL,
      BLOCK_PPLNS_WINDOW_MINI, BLOCK_PPLNS_WINDOW_MAIN, c2Inputs, c2State]
    decide

/-! ## Claim C3 -/

/-- A no-share epoch observed while the `time_donated` cell still holds the
previous epoch's decision of 300 seconds. -/
def c3Inputs : AlgoInputs :=
  { share := 0, hashrate_raw_15m := 2000, hashrate_raw_1m := 0, hashrate_raw := 0,
    sidechain_ehr := 0, p2pool_difficulty_u64 := 0, mini := true,
    runtime_hero_mode := false, donor_1hr_avg := 0 }

/-- Starting state for the C3 counterexample: the cell holds 300. -/
def c3State : XvbState :=
  { p2pool_sent_last_hour_samples := [], xvb_sent_last_hour_samples := [],
    time_donated := 300 }

/-- C3 counterexample: in a `share_in_window = false` epoch the scheduler
does not write the shared `time_donated` cell, so its observable value is
the stale 300 from the previous epoch, not 0 as claimed. -/
theorem c3_no_share_cell_not_zeroed :
    (algorithm c3Inputs c3State).time_donated = 300 ∧ (300 : ℕ) ≠ 0 := by
  constructor
  · norm_num [algorithm, c3Inputs, c3State]
  · decide

/-- C3 (amended): with nonnegative miner hashrates, every issued donation
decision lies in `[0, 600]` (the value written to `time_donated` in a share
epoch); in a no-share epoch the scheduler issues no decision and leaves the
`time_donated` cell unchanged (it does not reset it to 0). -/
theorem c3_donated_in_range_and_no_share_frame (inp : AlgoInputs) (s : XvbState)
    (h15 : 0 ≤ inp.hashrate_raw_15m) (h1m : 0 ≤ inp.hashrate_raw_1m)
    (hraw : 0 ≤ inp.hashrate_raw) :
    (0 < inp.share → (algorithm inp s).time_donated ≤ 600) ∧
    (inp.share = 0 → (algorithm inp s).time_donated = s.time_donated) := by
  constructor
  · intro hs
    simp only [algorithm, if_pos hs]
    apply calcul_donated_time_le
    split
    · exact h15
    split
    · exact h1m
    · exact hraw
  · intro hs
    simp [algorithm, hs]

/-- C3 witness: the amended theorem applied at the concrete no-share epoch
of the counterexample, discharging the nonnegativity hypotheses. -/
theorem c3_donated_in_range_witness :
    (0 : ℚ) ≤ c3Inputs.hashrate_raw_15m ∧ (0 : ℚ) ≤ c3Inputs.hashrate_raw_1m ∧
    (0 : ℚ) ≤ c3Inputs.hashrate_raw ∧
    ((0 < c3Inputs.share → (algorithm c3Inputs c3State).time_donated ≤ 600) ∧
     (c3Inputs.share = 0 →
       (algorithm c3Inputs c3State).time_donated = c3State.time_donated)) :=
  ⟨by norm_num [c3Inputs], by norm_num [c3Inputs], by norm_num [c3Inputs],
    c3_donated_in_range_and_no_share_frame c3Inputs c3State
      (by norm_num [c3Inputs]) (by norm_num [c3Inputs]) (by norm_num [c3Inputs])⟩

/-! ## Claim C8 -/

/-- C8: tier snapping.  With `spared ≥ 1` and a nonnegative local hashrate,
`minimum_time_for_highest_accessible_round` returns exactly the spec's
`⌈(min_x / LHR) · 600⌉` (as a saturating `u32`) for the first tier in
descending order whose `min_x := threshold_x − ohr_donor` is exceeded by
`hr_for_donor := ((spared − 1)/600) · LHR`, and 0 when no tier qualifies;
and the returned value never exceeds the incoming spared time. -/
theorem c8_tier_snap_formula_and_bound (st : ℕ) (lhr chr shr : ℚ)
    (hst : 1 ≤ st) (hl : 0 ≤ lhr) :
    minimum_time_for_highest_accessible_round st lhr chr shr =
      tierSnapSpec st lhr chr shr ∧
    minimum_time_for_highest_accessible_round st lhr chr shr ≤ st := by
  refine ⟨?_, minimum_time_le hl⟩
  simp only [minimum_time_for_highest_accessible_round, tierSnapSpec,
    XVB_TIME_ALGO, XVB_ROUND_DONOR_MEGA_MIN_HR, XVB_ROUND_DONOR_WHALE_MIN_HR,
    XVB_ROUND_DONOR_VIP_MIN_HR, XVB_ROUND_DONOR_MIN_HR, Nat.cast_ofNat]
  split_ifs <;> first
    | rfl
    | (congr 1; ring)

/-- C8 witness: at `spared = 600`, `LHR = 5000` and no other donor hashrate,
the NORMAL tier (threshold 1000) is the highest reachable one and the
snapped time is `⌈(1000/5000)·600⌉ = 120 ≤ 600`. -/
theorem c8_tier_snap_witness :
    (1 ≤ 600 ∧ (0 : ℚ) ≤ 5000) ∧
    (minimum_time_for_highest_accessible_round 600 5000 0 0 =
       tierSnapSpec 600 5000 0 0 ∧
     minimum_time_for_highest_accessible_round 600 5000 0 0 ≤ 600) :=
  ⟨⟨by norm_num, by norm_num⟩,
    c8_tier_snap_formula_and_bound 600 5000 0 0 (by norm_num) (by norm_num)⟩

/-! ## Claim C10 -/

/-- C10: the scheduler's rolling hourly average divides the sample sum by
the sample count with no emptiness guard: on an empty window the divisor
(the cast sample count) is 0 — the division that produces the IEEE
not-a-number in the `f32` source — while on any non-empty window the
divisor is nonzero and the result is the arithmetic mean of the samples
(characterised product-free of the division: mean times count equals
sum). -/
theorem c10_avg_mean_and_empty_divisor (samples : List ℚ) :
    (samples = [] → (samples.length : ℚ) = 0) ∧
    (samples ≠ [] → (samples.length : ℚ) ≠ 0 ∧
      calc_last_hour_avg_hash_rate samples * (samples.length : ℚ) = samples.sum) := by
  constructor
  · intro h
    simp [h]
  · intro h
    have hlen : (samples.length : ℚ) ≠ 0 := by
      intro hc
      exact h (List.length_eq_zero.mp (by exact_mod_cast hc))
    exact ⟨hlen, by rw [calc_last_hour_avg_hash_rate, div_mul_cancel₀ _ hlen]⟩

/-- C10 witness: the average of the non-empty window `[3, 5]` is its
arithmetic mean (mean · 2 = 8). -/
theorem c10_avg_mean_witness :
    ([3, 5] : List ℚ) ≠ [] ∧
    ((([3, 5] : List ℚ).length : ℚ) ≠ 0 ∧
      calc_last_hour_avg_hash_rate [3, 5] * (([3, 5] : List ℚ).length : ℚ) =
        ([3, 5] : List ℚ).sum) :=
  ⟨by simp, (c10_avg_mean_and_empty_divisor [3, 5]).2 (by simp)⟩

set_option maxRecDepth 8000

/-! ## Claims C4 and C9: concrete parser runs -/

/-- The three payout lines of the spec's payout-parse scenario (also the
repository's own unit test input), newline-separated. -/
def payoutLines3 : String :=
  "You received a payout of 5.000000000001 XMR in block 1111\nYou received a payout of 5.000000000001 XMR in block 1112\nYou received a payout of 5.000000000001 XMR in block 1113\n"

lemma scan_payoutLines3 :
    scanPayouts payoutLines3.data.length payoutLines3.data =
      [('5', '.', "000000000001".data), ('5', '.', "000000000001".data),
       ('5', '.', "000000000001".data)] := by
  rfl

lemma calc_payoutLines3 :
    calc_payouts_and_xmr payoutLines3 = (3, 15.000000000003) := by
  rw [calc_payouts_and_xmr, scan_payoutLines3]
  norm_num [parseF64, natOfDigits, show digitVal '5' = 5 from rfl,
    show digitVal '1' = 1 from rfl, show digitVal '0' = 0 from rfl]

lemma calc_empty : calc_payouts_and_xmr "" = (0, 0) := by rfl

/-- C9: feeding the parser the three payout lines with 60 elapsed seconds
and zero prior totals yields payout count 3, XMR sum `15.000000000003`,
the projections `(value/60)·3600`, `×24`, `×30` (180 / 4320 / 129600
payouts and `900.00000000018` / `21600.00000000432` / `648000.0000001296`
XMR), and leaves the parse buffer empty. -/
theorem c9_payout_parse_scenario :
    (PubP2poolApi.update_from_output PubP2poolApi.new payoutLines3 "" 60).1.payouts = 3 ∧
    (PubP2poolApi.update_from_output PubP2poolApi.new payoutLines3 "" 60).1.xmr
      = 15.000000000003 ∧
    (PubP2poolApi.update_from_output PubP2poolApi.new payoutLines3 "" 60).1.payouts_hour
      = 180 ∧
    (PubP2poolApi.update_from_output PubP2poolApi.new payoutLines3 "" 60).1.payouts_day
      = 4320 ∧
    (PubP2poolApi.update_from_output PubP2poolApi.new payoutLines3 "" 60).1.payouts_month
      = 129600 ∧
    (PubP2poolApi.update_from_output PubP2poolApi.new payoutLines3 "" 60).1.xmr_hour
      = 900.00000000018 ∧
    (PubP2poolApi.update_from_output PubP2poolApi.new payoutLines3 "" 60).1.xmr_day
      = 21600.00000000432 ∧
    (PubP2poolApi.update_from_output PubP2poolApi.new payoutLines3 "" 60).1.xmr_month
      = 648000.0000001296 ∧
    (PubP2poolApi.update_from_output PubP2poolApi.new payoutLines3 "" 60).2.1 = "" := by
  refine ⟨?_, ?_, ?_, ?_, ?_, ?_, ?_, ?_, ?_⟩ <;>
    norm_num [PubP2poolApi.update_from_output, PubP2poolApi.new, calc_payoutLines3]

/-- The C4 history: a parser pass over the three payout lines, a merge, a
parser pass over an empty buffer, a merge. -/
def c4Events : List PoolEvent :=
  [PoolEvent.parse payoutLines3 60, PoolEvent.merge,
   PoolEvent.parse "" 120, PoolEvent.merge]

/-- C4: the reconciliation merge does NOT preserve the running totals:
`combine_gui_pub_api` resets the internal record to its default
(`std::mem::take`), so after a second merge the UI payout total collapses
to the payouts matched since the previous merge.  Over the history
`parse(3 payouts); merge; parse(nothing); merge` the UI total is 0 while 3
payouts were matched since start. -/
theorem c4_merge_loses_running_totals :
    (runPoolEvents (PubP2poolApi.new, PubP2poolApi.new) c4Events).1.payouts = 0 ∧
    matchedPayouts c4Events = 3 ∧ (0 : ℕ) ≠ 3 := by
  refine ⟨?_, ?_, by decide⟩
  · simp [runPoolEvents, c4Events, stepPoolEvent, PubP2poolApi.update_from_output,
      PubP2poolApi.combine_gui_pub_api, PubP2poolApi.new, calc_empty]
  · simp [matchedPayouts, c4Events, calc_payoutLines3, calc_empty]

/-! ## Claim C5 -/

/-- C5: the reconciliation merge preserves the UI console by appending: the
merged UI output is the pre-merge UI output with the whole internal output
appended (in particular the pre-merge value is a prefix of it), and every
other UI field equals the corresponding pre-merge internal field — for the
Pool record and the Miner record alike. -/
theorem c5_merge_appends_output_and_copies_fields
    (g p : PubP2poolApi) (gx px : PubXmrigApi) :
    ((PubP2poolApi.combine_gui_pub_api g p).1.output = g.output ++ p.output ∧
     (∃ t, (PubP2poolApi.combine_gui_pub_api g p).1.output = g.output ++ t) ∧
     (PubP2poolApi.combine_gui_pub_api g p).1.uptime = p.uptime ∧
     (PubP2poolApi.combine_gui_pub_api g p).1.payouts = p.payouts ∧
     (PubP2poolApi.combine_gui_pub_api g p).1.payouts_hour = p.payouts_hour ∧
     (PubP2poolApi.combine_gui_pub_api g p).1.payouts_day = p.payouts_day ∧
     (PubP2poolApi.combine_gui_pub_api g p).1.payouts_month = p.payouts_month ∧
     (PubP2poolApi.combine_gui_pub_api g p).1.xmr = p.xmr ∧
     (PubP2poolApi.combine_gui_pub_api g p).1.xmr_hour = p.xmr_hour ∧
     (PubP2poolApi.combine_gui_pub_api g p).1.xmr_day = p.xmr_day ∧
     (PubP2poolApi.combine_gui_pub_api g p).1.xmr_month = p.xmr_month ∧
     (PubP2poolApi.combine_gui_pub_api g p).1.hashrate_15m = p.hashrate_15m ∧
     (PubP2poolApi.combine_gui_pub_api g p).1.hashrate_1h = p.hashrate_1h ∧
     (PubP2poolApi.combine_gui_pub_api g p).1.hashrate_24h = p.hashrate_24h ∧
     (PubP2poolApi.combine_gui_pub_api g p).1.shares_found = p.shares_found ∧
     (PubP2poolApi.combine_gui_pub_api g p).1.average_effort = p.average_effort ∧
     (PubP2poolApi.combine_gui_pub_api g p).1.current_effort = p.current_effort ∧
     (PubP2poolApi.combine_gui_pub_api g p).1.connections = p.connections) ∧
    ((PubXmrigApi.combine_gui_pub_api gx px).1.output = gx.output ++ px.output ∧
     (∃ t, (PubXmrigApi.combine_gui_pub_api gx px).1.output = gx.output ++ t) ∧
     (PubXmrigApi.combine_gui_pub_api gx px).1.uptime = px.uptime ∧
     (PubXmrigApi.combine_gui_pub_api gx px).1.worker_id = px.worker_id ∧
     (PubXmrigApi.combine_gui_pub_api gx px).1.resources = px.resources ∧
     (PubXmrigApi.combine_gui_pub_api gx px).1.hashrate = px.hashrate ∧
     (PubXmrigApi.combine_gui_pub_api gx px).1.pool = px.pool ∧
     (PubXmrigApi.combine_gui_pub_api gx px).1.diff = px.diff ∧
     (PubXmrigApi.combine_gui_pub_api gx px).1.accepted = px.accepted ∧
     (PubXmrigApi.combine_gui_pub_api gx px).1.rejected = px.rejected) :=
  ⟨⟨rfl, ⟨p.output, rfl⟩, rfl, rfl, rfl, rfl, rfl, rfl, rfl, rfl, rfl, rfl, rfl,
     rfl, rfl, rfl, rfl, rfl⟩,
   ⟨rfl, ⟨px.output, rfl⟩, rfl, rfl, rfl, rfl, rfl, rfl, rfl, rfl⟩⟩

/-! ## Claim C6 -/

/-- A buffer of 499 000 bytes: within the leeway, so the per-epoch check
leaves it unchanged. -/
def c6Buf : String := String.mk (List.replicate 499000 'a')

/-- 1001 bytes of child output appended after the check. -/
def c6Delta : String := String.mk (List.replicate 1001 'b')

lemma c6Buf_length : c6Buf.length = 499000 := by
  rw [show c6Buf.length = (List.replicate 499000 'a').length from rfl,
    List.length_replicate]

lemma c6Delta_length : c6Delta.length = 1001 := by
  rw [show c6Delta.length = (List.replicate 1001 'b').length from rfl,
    List.length_replicate]

/-- C6 counterexample: the watchdog bounds nothing but the pre-append
check, so a 499 000-byte buffer (which the check leaves alone) followed by
1001 bytes of appended output ends the epoch at 500 001 bytes, above the
claimed 500 000-byte cap — the claim's premise that post-check appends stay
within the 1000-byte leeway is not enforced by the code. -/
theorem c6_epoch_can_exceed_max :
    (epochBufUpdate ProcessName.P2pool c6Buf c6Delta).length = 500001 ∧
    MAX_GUI_OUTPUT_BYTES < 500001 := by
  constructor
  · have hcheck : check_reset_gui_output c6Buf ProcessName.P2pool = c6Buf := by
      rw [check_reset_gui_output, if_neg]
      rw [c6Buf_length]
      norm_num [GUI_OUTPUT_LEEWAY, MAX_GUI_OUTPUT_BYTES]
    rw [epochBufUpdate, hcheck, String.length_append, c6Buf_length, c6Delta_length]
  · norm_num [MAX_GUI_OUTPUT_BYTES]

lemma resetNotice_length_le (name : ProcessName) :
    (resetNotice name).length ≤ 499000 := by
  cases name <;> decide

/-- C6 (amended): the per-epoch check clears the buffer and replaces it
with the rotation notice exactly when its length exceeds
`500000 − 1000` bytes and leaves it unchanged otherwise; consequently the
end-of-epoch length stays at most 500 000 bytes PROVIDED the bytes
appended after the check total at most the 1000-byte leeway (the code
itself does not bound the appended child output). -/
theorem c6_epoch_bound_under_leeway (name : ProcessName) (buf delta : String)
    (hd : delta.length ≤ 1000) :
    (check_reset_gui_output buf name =
      if GUI_OUTPUT_LEEWAY < buf.length then resetNotice name else buf) ∧
    (epochBufUpdate name buf delta).length ≤ MAX_GUI_OUTPUT_BYTES := by
  refine ⟨rfl, ?_⟩
  rw [epochBufUpdate, String.length_append, check_reset_gui_output]
  split
  · have := resetNotice_length_le name
    norm_num [MAX_GUI_OUTPUT_BYTES]
    omega
  · next h =>
    have hb : buf.length ≤ GUI_OUTPUT_LEEWAY := Nat.le_of_not_lt h
    have : GUI_OUTPUT_LEEWAY = 499000 := by norm_num [GUI_OUTPUT_LEEWAY, MAX_GUI_OUTPUT_BYTES]
    norm_num [MAX_GUI_OUTPUT_BYTES]
    omega

/-- C6 witness: the amended bound applied to an empty buffer and a one-byte
append. -/
theorem c6_epoch_bound_witness :
    ("x" : String).length ≤ 1000 ∧
    ((check_reset_gui_output "" ProcessName.P2pool =
       if GUI_OUTPUT_LEEWAY < ("" : String).length then resetNotice ProcessName.P2pool
       else "") ∧
     (epochBufUpdate ProcessName.P2pool "" "x").length ≤ MAX_GUI_OUTPUT_BYTES) :=
  ⟨by decide, c6_epoch_bound_under_leeway ProcessName.P2pool "" "x" (by decide)⟩

/-! ## Claim C7 -/

/-- A Dead pool process record with no child handle. -/
def deadProcess : Process :=
  { name := ProcessName.P2pool, state := ProcessState.Dead,
    signal := ProcessSignal.None, input := [], child := false, stdin := false,
    output_parse := "", output_pub := "" }

/-- C7 counterexample: issuing Stop on a Dead process is not a state
no-op — `stop_p2pool` unconditionally sets the state to `Middle`, so it
does not remain `Dead`. -/
theorem c7_stop_on_dead_changes_state :
    (stop_p2pool deadProcess).state = ProcessState.Middle ∧
    ProcessState.Middle ≠ ProcessState.Dead := by
  exact ⟨rfl, by decide⟩

/-- C7 (amended): issuing Stop on a Dead process record sets its signal to
`Stop` and its state to `Middle` (not leaving it `Dead`); the stop
functions write nothing else — the child and stdin handles, the pending
input queue and both output buffers are untouched (no write reaches the
absent child) — and `stop_p2pool` and `stop_xmrig` act identically. -/
theorem c7_stop_on_dead_signals_only (p : Process) (hp : p.state = ProcessState.Dead) :
    ((stop_p2pool p).state = ProcessState.Middle ∧
     (stop_p2pool p).signal = ProcessSignal.Stop ∧
     (stop_p2pool p).child = p.child ∧
     (stop_p2pool p).stdin = p.stdin ∧
     (stop_p2pool p).input = p.input ∧
     (stop_p2pool p).output_parse = p.output_parse ∧
     (stop_p2pool p).output_pub = p.output_pub ∧
     (stop_p2pool p).name = p.name) ∧
    stop_xmrig p = stop_p2pool p :=
  ⟨⟨rfl, rfl, rfl, rfl, rfl, rfl, rfl, rfl⟩, rfl⟩

/-- C7 witness: the amended statement at the concrete Dead record. -/
theorem c7_stop_on_dead_witness :
    deadProcess.state = ProcessState.Dead ∧
    (((stop_p2pool deadProcess).state = ProcessState.Middle ∧
      (stop_p2pool deadProcess).signal = ProcessSignal.Stop ∧
      (stop_p2pool deadProcess).child = deadProcess.child ∧
      (stop_p2pool deadProcess).stdin = deadProcess.stdin ∧
      (stop_p2pool deadProcess).input = deadProcess.input ∧
      (stop_p2pool deadProcess).output_parse = deadProcess.output_parse ∧
      (stop_p2pool deadProcess).output_pub = deadProcess.output_pub ∧
      (stop_p2pool deadProcess).name = deadProcess.name) ∧
     stop_xmrig deadProcess = stop_p2pool deadProcess) :=
  ⟨rfl, c7_stop_on_dead_signals_only deadProcess rfl⟩

end Gupax
